import Mathlib

/-!
Shallow embedding of the entity-form lifecycle and data-loading pages of an
e-commerce administration dashboard.

The billboard form component (`BillboardForm`) is embedded as a small state
machine: its event handlers (`onSubmit`, `onDelete`, button clicks) are
functions producing a trace of UI/network actions, and the component state
(form values, `loading` flag, modal `open` flag) is updated by folding the
trace.  The product page's data loading and the setup page's effect are
embedded as pure functions.  External collaborators (the persistence
endpoint, the URL validator of the schema library, the object-id validator
of the database driver) are abstracted as parameters or modelled from the
specification, as noted on each definition.
-/

namespace Dashboard

/-- The validated form values of the billboard form (`BillboardFormValues`):
the zod schema has exactly the fields `label` and `imageUrl`; in particular
the record identifier is not a form field. -/
structure BillboardFormValues where
  label : String
  imageUrl : String
  deriving DecidableEq, Repr

/-- A persisted billboard record (the `Billboard` interface). -/
structure Billboard where
  _id : String
  label : String
  imageUrl : String
  userId : String
  deriving DecidableEq, Repr

/-- The route parameters the form reads via `useParams`. -/
structure RouteParams where
  storeId : String
  billboardId : String
  deriving DecidableEq, Repr

/-- The props and routing context of one mounted `BillboardForm`:
`initialData` is `none` in create mode and `some` record in edit mode. -/
structure Config where
  params : RouteParams
  initialData : Option Billboard
  deriving DecidableEq, Repr

/-- A network request issued through the HTTP client. -/
inductive Request where
  | post (url : String) (body : BillboardFormValues)
  | patch (url : String) (body : BillboardFormValues)
  | delete (url : String)
  deriving DecidableEq, Repr

/-- A validation failure of the zod `formSchema`:
`label` must be a string of length between 3 and 25, `imageUrl` a URL. -/
inductive FieldError where
  | labelTooShort
  | labelTooLong
  | imageUrlNotUrl
  deriving DecidableEq, Repr

/-- The form field a validation failure is attached to. -/
def FieldError.field : FieldError → String
  | .labelTooShort => "label"
  | .labelTooLong => "label"
  | .imageUrlNotUrl => "imageUrl"

/-- The message surfaced for a validation failure (the `min` bound carries a
custom message in the schema; the others use the library defaults). -/
def FieldError.message : FieldError → String
  | .labelTooShort => "Store name is required, (min 3 characters)."
  | .labelTooLong => "String must contain at most 25 character(s)"
  | .imageUrlNotUrl => "Invalid url"

/-- One observable action of the component: state-flag writes, network
requests, navigation, toasts, per-field validation messages, and field-value
writes (issued by the image-upload change handlers in the rendered form). -/
inductive Action where
  | setLoading (b : Bool)
  | setOpen (b : Bool)
  | request (r : Request)
  | push (route : String)
  | refresh
  | toastSuccess (msg : String)
  | toastError (msg : String)
  | fieldError (e : FieldError)
  | setFieldValue (field : String) (value : String)
  deriving DecidableEq, Repr

/-- URL of the create (POST) endpoint: the entity collection scoped to the
current store. -/
def createUrl (p : RouteParams) : String :=
  "/api/" ++ p.storeId ++ "/billboards"

/-- URL of the update (PATCH) and delete (DELETE) endpoint: scoped to the
current store and the record identifier from the route. -/
def updateUrl (p : RouteParams) : String :=
  "/api/" ++ p.storeId ++ "/billboards/" ++ p.billboardId

/-- The route of the entity's collection list, pushed on success. -/
def listRoute (p : RouteParams) : String :=
  "/" ++ p.storeId ++ "/billboards"

/-- The success toast text: mode-specific (`toastMessage` in the source). -/
def toastMessage (cfg : Config) : String :=
  if cfg.initialData.isSome then "Billboard updated successfully"
  else "Billboard created successfully"

/-- Trace of the `onSubmit` handler.  `ok` is the outcome of the awaited
HTTP call (`true` = resolves, `false` = rejects): set `loading`, issue the
mode-dependent request, then on success push the list route, refresh and
toast success, on failure toast the generic error; finally clear `loading`. -/
def onSubmit (cfg : Config) (data : BillboardFormValues) (ok : Bool) :
    List Action :=
  [Action.setLoading true] ++
  [Action.request
    (if cfg.initialData.isSome then Request.patch (updateUrl cfg.params) data
     else Request.post (createUrl cfg.params) data)] ++
  (if ok then
    [Action.push (listRoute cfg.params), Action.refresh,
     Action.toastSuccess (toastMessage cfg)]
   else
    [Action.toastError "Something went wrong."]) ++
  [Action.setLoading false]

/-- Trace of the `onDelete` handler.  `ok` is the outcome of the awaited
DELETE call; the `finally` block clears `loading` and closes the modal on
every completion path. -/
def onDelete (cfg : Config) (ok : Bool) : List Action :=
  [Action.setLoading true,
   Action.request (Request.delete (updateUrl cfg.params))] ++
  (if ok then
    [Action.push (listRoute cfg.params), Action.refresh,
     Action.toastSuccess "Billboard deleted successfully"]
   else
    [Action.toastError
      "Make sure you deleted all categories using this billboard first"]) ++
  [Action.setLoading false, Action.setOpen false]

/-- The zod `formSchema` check: `label` length at least 3 and at most 25,
`imageUrl` accepted by the library's URL validator `isUrl` (the validator
itself is external to the repository and is abstracted as a parameter). -/
def validateValues (isUrl : String → Bool) (v : BillboardFormValues) :
    List FieldError :=
  (if v.label.length < 3 then [FieldError.labelTooShort] else []) ++
  (if 25 < v.label.length then [FieldError.labelTooLong] else []) ++
  (if isUrl v.imageUrl then [] else [FieldError.imageUrlNotUrl])

/-- `form.handleSubmit(onSubmit)`: the resolver validates against the schema
first; on failure it surfaces the per-field messages and never calls
`onSubmit`, on success it runs `onSubmit`. -/
def handleSubmit (isUrl : String → Bool) (cfg : Config)
    (v : BillboardFormValues) (ok : Bool) : List Action :=
  match validateValues isUrl v with
  | [] => onSubmit cfg v ok
  | errs => errs.map Action.fieldError

/-- The local state of one mounted `BillboardForm` screen: the current form
field values and the two `useState` flags (`loading`, modal `open`). -/
structure ScreenState where
  values : BillboardFormValues
  loading : Bool
  modalOpen : Bool
  deriving DecidableEq, Repr

/-- Write one named form field (the shape of `field.onChange`). -/
def setField (v : BillboardFormValues) (f s : String) : BillboardFormValues :=
  if f == "label" then { v with label := s }
  else if f == "imageUrl" then { v with imageUrl := s }
  else v

/-- How one action updates the screen state: `setLoading`/`setOpen` write the
flags, `setFieldValue` writes a form field; requests, navigation and toasts
do not touch the screen state. -/
def applyAction (st : ScreenState) (a : Action) : ScreenState :=
  match a with
  | .setLoading b => { st with loading := b }
  | .setOpen b => { st with modalOpen := b }
  | .setFieldValue f s => { st with values := setField st.values f s }
  | _ => st

/-- Fold a trace of actions over the screen state. -/
def applyTrace (st : ScreenState) (tr : List Action) : ScreenState :=
  tr.foldl applyAction st

/-- The network requests contained in a trace, in order. -/
def requestsOf (tr : List Action) : List Request :=
  tr.filterMap fun a =>
    match a with
    | .request r => some r
    | _ => none

/-- The navigation pushes contained in a trace, in order. -/
def pushesOf (tr : List Action) : List String :=
  tr.filterMap fun a =>
    match a with
    | .push r => some r
    | _ => none

/-- A user-interface event on the billboard form screen. -/
inductive Event where
  | clickDelete
  | confirmDelete (ok : Bool)
  | closeModal
  | clickSubmit (ok : Bool)
  deriving DecidableEq, Repr

/-- One step of the screen's event handling, returning the trace of actions
the event causes.
The delete (trash) button is rendered only when `initialData` is present and
is disabled while `loading`, so `clickDelete` is a no-op otherwise; the
submit button is disabled while `loading`, so `clickSubmit` is a no-op then.
Modelled from the spec: the `AlertModal` component itself is not part of the
provided sources; per the specification the destructive action is gated
behind the confirmation step, so `confirmDelete` (the modal's `onConfirm`)
and `closeModal` (its `onClose`) only fire while the modal is open, and the
modal's buttons are disabled while `loading`. -/
def step (isUrl : String → Bool) (cfg : Config) (st : ScreenState)
    (e : Event) : List Action :=
  match e with
  | .clickDelete =>
      if cfg.initialData.isSome && !st.loading then [Action.setOpen true]
      else []
  | .confirmDelete ok =>
      if st.modalOpen && !st.loading then onDelete cfg ok else []
  | .closeModal =>
      if st.modalOpen && !st.loading then [Action.setOpen false] else []
  | .clickSubmit ok =>
      if st.loading then [] else handleSubmit isUrl cfg st.values ok

/-- Run a sequence of events from a screen state, applying each event's trace
before the next event, and collect the full action trace. -/
def run (isUrl : String → Bool) (cfg : Config) (st : ScreenState) :
    List Event → ScreenState × List Action
  | [] => (st, [])
  | e :: es =>
      ((run isUrl cfg (applyTrace st (step isUrl cfg st e)) es).1,
       step isUrl cfg st e ++
         (run isUrl cfg (applyTrace st (step isUrl cfg st e)) es).2)

/-- The screen state at mount: values from `initialData` or the defaults,
both flags false. -/
def initState (cfg : Config) : ScreenState :=
  { values :=
      match cfg.initialData with
      | some b => { label := b.label, imageUrl := b.imageUrl }
      | none => { label := "", imageUrl := "" }
    loading := false
    modalOpen := false }

/-- The backing store's billboard collection. -/
structure BillboardDB where
  billboards : List Billboard
  deriving DecidableEq, Repr

/-- Modelled from the spec: the persistence endpoint's PATCH semantics (the
API route handlers are not part of the provided sources) — on success the
matching record's form-backed fields are overwritten from the request body;
the identifier is not a body field and is left unchanged.  On failure the
store is unchanged. -/
def dbUpdate (db : BillboardDB) (id : String) (body : BillboardFormValues)
    (ok : Bool) : BillboardDB :=
  if ok then
    { billboards := db.billboards.map fun b =>
        if b._id == id then
          { b with label := body.label, imageUrl := body.imageUrl }
        else b }
  else db

/-- Modelled from the spec: the persistence endpoint's DELETE semantics —
on success the record is removed; on failure (e.g. a referential-integrity
violation reported by the store) the store is unchanged. -/
def dbDelete (db : BillboardDB) (id : String) (ok : Bool) : BillboardDB :=
  if ok then
    { billboards := db.billboards.filter fun b => b._id != id }
  else db

/-- Modelled from the spec: the list fetch returns the store's collection. -/
def listFetch (db : BillboardDB) : List Billboard :=
  db.billboards

/-- A product document in the database (fields of the Mongoose schema the
page projects; `price : number` carried as an integer, unused by any bound
here). -/
structure ProductDoc where
  _id : String
  name : String
  price : Int
  isFeatured : Bool
  isArchived : Bool
  categoryId : String
  sizeId : String
  colorId : String
  images : List String
  deriving DecidableEq, Repr

/-- The `LeanProduct` shape passed to the form as `initialData`. -/
structure LeanProduct where
  _id : String
  name : String
  price : Int
  isFeatured : Bool
  isArchived : Bool
  categoryId : String
  sizeId : String
  colorId : String
  images : List String
  deriving DecidableEq, Repr

/-- The field-by-field projection of a found document (lines building
`product` from `found` in the page). -/
def leanOfDoc (found : ProductDoc) : LeanProduct :=
  { _id := found._id
    name := found.name
    price := found.price
    isFeatured := found.isFeatured
    isArchived := found.isArchived
    categoryId := found.categoryId
    sizeId := found.sizeId
    colorId := found.colorId
    images := found.images }

/-- `Product.findById`: the first document whose identifier matches. -/
def findById (products : List ProductDoc) (pid : String) :
    Option ProductDoc :=
  products.find? fun p => p._id == pid

/-- Step 1 of the product page: load the existing product only when the
route parameter is not the literal `new` and passes the driver's
`isValidObjectId` check (the checker is external and abstracted as a
parameter).  Returns the `initialData` passed to the form and whether a
lookup was performed at all. -/
def loadProduct (isValidObjectId : String → Bool)
    (products : List ProductDoc) (pid : String) :
    Option LeanProduct × Bool :=
  if pid != "new" && isValidObjectId pid then
    match findById products pid with
    | some found => (some (leanOfDoc found), true)
    | none => (none, true)
  else (none, false)

/-- A category document (`_id`, `name`, owning `storeId`). -/
structure CategoryDoc where
  _id : String
  name : String
  storeId : String
  deriving DecidableEq, Repr

/-- A size document (`_id`, `name`, `value`, owning `storeId`). -/
structure SizeDoc where
  _id : String
  name : String
  value : String
  storeId : String
  deriving DecidableEq, Repr

/-- A color document (`_id`, `name`, `value`, owning `storeId`). -/
structure ColorDoc where
  _id : String
  name : String
  storeId : String
  value : String
  deriving DecidableEq, Repr

/-- The `LeanCategory` shape passed to the form. -/
structure LeanCategory where
  _id : String
  name : String
  deriving DecidableEq, Repr

/-- The `LeanSize` shape passed to the form. -/
structure LeanSize where
  _id : String
  name : String
  value : String
  deriving DecidableEq, Repr

/-- The `LeanColor` shape passed to the form. -/
structure LeanColor where
  _id : String
  name : String
  value : String
  deriving DecidableEq, Repr

/-- The reference collections the product page queries. -/
structure DropdownDB where
  categories : List CategoryDoc
  sizes : List SizeDoc
  colors : List ColorDoc
  deriving DecidableEq, Repr

/-- `Category.find({ storeId })` followed by the page's mapping. -/
def catsFor (db : DropdownDB) (storeId : String) : List LeanCategory :=
  (db.categories.filter fun c => c.storeId == storeId).map fun c =>
    { _id := c._id, name := c.name }

/-- `Size.find({ storeId })` followed by the page's mapping. -/
def sizesFor (db : DropdownDB) (storeId : String) : List LeanSize :=
  (db.sizes.filter fun s => s.storeId == storeId).map fun s =>
    { _id := s._id, name := s.name, value := s.value }

/-- `Color.find({ storeId })` followed by the page's mapping. -/
def colorsFor (db : DropdownDB) (storeId : String) : List LeanColor :=
  (db.colors.filter fun c => c.storeId == storeId).map fun c =>
    { _id := c._id, name := c.name, value := c.value }

/-- Step 2 of the product page: the three reference fetches run under one
`Promise.all` inside a single `try`; the three flags say whether each fetch
resolves.  If the joined promise resolves (all three fetches succeed) the
three mapped collections are assigned; if it rejects (any fetch fails) the
`catch` runs and all three variables keep their initial empty value. -/
def loadDropdowns (db : DropdownDB) (storeId : String)
    (catOk sizeOk colorOk : Bool) :
    List LeanCategory × List LeanSize × List LeanColor :=
  if catOk && sizeOk && colorOk then
    (catsFor db storeId, sizesFor db storeId, colorsFor db storeId)
  else ([], [], [])

/-- The props the product page hands to `ProductForm` after both steps. -/
structure ProductFormProps where
  initialData : Option LeanProduct
  categories : List LeanCategory
  sizes : List LeanSize
  colors : List LeanColor
  deriving DecidableEq, Repr

/-- The whole product page load: product lookup then dropdown aggregation;
the page always renders the form with whatever the two steps produced. -/
def productPage (isValidObjectId : String → Bool)
    (products : List ProductDoc) (db : DropdownDB)
    (storeId pid : String) (catOk sizeOk colorOk : Bool) :
    ProductFormProps :=
  let d := loadDropdowns db storeId catOk sizeOk colorOk
  { initialData := (loadProduct isValidObjectId products pid).1
    categories := d.1
    sizes := d.2.1
    colors := d.2.2 }

/-- Modelled from the spec: the store-creation modal hook's `onOpen` action
opens the modal (the hook's module is not part of the provided sources). -/
def storeModalOnOpen (_isOpen : Bool) : Bool :=
  true

/-- The setup page body renders `null`: no visible output. -/
def setUpPageRender : Option Unit :=
  none

/-- The setup page's effect: when the modal is not open it invokes `onOpen`;
returns whether `onOpen` was invoked and the modal state after the effect. -/
def setUpPageEffect (isOpen : Bool) : Bool × Bool :=
  if !isOpen then (true, storeModalOnOpen isOpen) else (false, isOpen)

/-! ### Concrete fixtures used by witnesses -/

/-- Route parameters of a sample mounted screen. -/
def sampleParams : RouteParams :=
  { storeId := "store1", billboardId := "bb1" }

/-- A sample persisted billboard. -/
def sampleBillboard : Billboard :=
  { _id := "bb1", label := "Summer Sale",
    imageUrl := "https://host/img.png", userId := "u1" }

/-- A sample screen in edit mode. -/
def cfgEdit : Config :=
  { params := sampleParams, initialData := some sampleBillboard }

/-- A sample screen in create mode. -/
def cfgCreate : Config :=
  { params := sampleParams, initialData := none }

/-- Sample valid form values. -/
def sampleValues : BillboardFormValues :=
  { label := "Summer Sale", imageUrl := "https://host/img.png" }

/-- A URL validator accepting everything (the validator is abstract). -/
def sampleUrlCheck : String → Bool :=
  fun _ => true

/-- A sample screen state holding valid values, idle. -/
def sampleState : ScreenState :=
  { values := sampleValues, loading := false, modalOpen := false }

/-! ### Helper lemmas -/

theorem requestsOf_map_fieldError (errs : List FieldError) :
    requestsOf (errs.map Action.fieldError) = [] := by
  induction errs with
  | nil => rfl
  | cons e rest _ih => simp [requestsOf, List.filterMap_cons]

theorem pushesOf_map_fieldError (errs : List FieldError) :
    pushesOf (errs.map Action.fieldError) = [] := by
  induction errs with
  | nil => rfl
  | cons e rest _ih => simp [pushesOf, List.filterMap_cons]

theorem applyTrace_map_fieldError (st : ScreenState) (errs : List FieldError) :
    applyTrace st (errs.map Action.fieldError) = st := by
  induction errs with
  | nil => rfl
  | cons e rest ih => simpa [applyTrace, applyAction] using ih

theorem validateValues_eq_nil (isUrl : String → Bool)
    (v : BillboardFormValues) :
    validateValues isUrl v = [] ↔
      ¬ v.label.length < 3 ∧ ¬ 25 < v.label.length ∧
        isUrl v.imageUrl = true := by
  unfold validateValues
  split_ifs <;> simp_all

/-- C1: For every valid form input, submit issues exactly one network
request: in create mode (no `initialData`) a single POST to the entity
collection scoped to the current store; in edit mode a single PATCH scoped
to the current store and the original record identifier; the submitted body
is the form values, which contain no identifier — the request trace is the
same whichever record `initialData` holds, and (under the modelled PATCH
semantics) the update never alters any record's identifier. -/
theorem claim_C1_submit_requests (cfg : Config) (data : BillboardFormValues)
    (ok : Bool) :
    (requestsOf (onSubmit cfg data ok)).length = 1 ∧
    (cfg.initialData = none →
      requestsOf (onSubmit cfg data ok) =
        [Request.post (createUrl cfg.params) data]) ∧
    (∀ b, cfg.initialData = some b →
      requestsOf (onSubmit cfg data ok) =
        [Request.patch (updateUrl cfg.params) data]) ∧
    (∀ b b', requestsOf (onSubmit { cfg with initialData := some b } data ok) =
      requestsOf (onSubmit { cfg with initialData := some b' } data ok)) ∧
    (∀ db id, (listFetch (dbUpdate db id data ok)).map (fun b => b._id) =
      (listFetch db).map (fun b => b._id)) := by
  refine ⟨?_, ?_, ?_, ?_, ?_⟩
  · rcases cfg with ⟨p, d⟩
    cases d <;> cases ok <;> simp [onSubmit, requestsOf]
  · intro h
    cases ok <;> simp [onSubmit, requestsOf, h]
  · intro b h
    cases ok <;> simp [onSubmit, requestsOf, h]
  · intro b b'
    cases ok <;> simp [onSubmit, requestsOf]
  · intro db id
    cases ok with
    | false => simp [dbUpdate]
    | true =>
        simp only [dbUpdate, listFetch, if_pos, List.map_map]
        apply List.map_congr_left
        intro b _
        simp only [Function.comp]
        split <;> rfl

/-- C1 witness: in the sample edit-mode screen the submit trace is exactly
one PATCH to the store- and record-scoped URL with the form values. -/
theorem claim_C1_witness :
    requestsOf (onSubmit cfgEdit sampleValues true) =
      [Request.patch (updateUrl cfgEdit.params) sampleValues] :=
  (claim_C1_submit_requests cfgEdit sampleValues true).2.2.1 sampleBillboard rfl

/-- C2: When the request succeeds, the submit trace navigates to the entity
collection list exactly once, refreshes the cached data, and shows the
mode-specific success toast (created-text in create mode, updated-text in
edit mode). -/
theorem claim_C2_success_path (cfg : Config) (data : BillboardFormValues) :
    pushesOf (onSubmit cfg data true) = [listRoute cfg.params] ∧
    Action.refresh ∈ onSubmit cfg data true ∧
    (cfg.initialData = none →
      Action.toastSuccess "Billboard created successfully" ∈
        onSubmit cfg data true) ∧
    (cfg.initialData.isSome = true →
      Action.toastSuccess "Billboard updated successfully" ∈
        onSubmit cfg data true) := by
  refine ⟨?_, ?_, ?_, ?_⟩
  · rcases cfg with ⟨p, d⟩
    cases d <;> simp [onSubmit, pushesOf]
  · rcases cfg with ⟨p, d⟩
    cases d <;> simp [onSubmit]
  · intro h
    simp [onSubmit, toastMessage, h]
  · intro h
    simp [onSubmit, toastMessage, h]

/-- C2 witness: the sample create-mode submit, on success, pushes the list
route and toasts the created-text. -/
theorem claim_C2_witness :
    Action.toastSuccess "Billboard created successfully" ∈
      onSubmit cfgCreate sampleValues true :=
  (claim_C2_success_path cfgCreate sampleValues).2.2.1 rfl

/-- C3: When the request fails, the submit trace shows the generic failure
toast, performs no navigation and no refresh, and leaves the form's field
values unchanged. -/
theorem claim_C3_failure_path (cfg : Config) (data : BillboardFormValues)
    (st : ScreenState) :
    Action.toastError "Something went wrong." ∈ onSubmit cfg data false ∧
    pushesOf (onSubmit cfg data false) = [] ∧
    Action.refresh ∉ onSubmit cfg data false ∧
    (applyTrace st (onSubmit cfg data false)).values = st.values := by
  rcases cfg with ⟨p, d⟩
  refine ⟨?_, ?_, ?_, ?_⟩ <;>
    cases d <;> simp [onSubmit, pushesOf, applyTrace, applyAction]

/-- C3 witness: the failed sample create-mode submit navigates nowhere. -/
theorem claim_C3_witness :
    pushesOf (onSubmit cfgCreate sampleValues false) = [] :=
  (claim_C3_failure_path cfgCreate sampleValues sampleState).2.1

/-- C4: For a submit click from an idle screen with schema-valid values, the
trace sets `loading` first and clears it last, contains exactly one network
request, and at every point strictly inside the trace the screen is in the
`loading` state — so a second submit click arriving there is a no-op
(clicking while `loading` produces no actions at all), two rapid submit
attempts yield exactly one network call, and after the trace completes the
screen is idle again. -/
theorem claim_C4_single_flight (isUrl : String → Bool) (cfg : Config)
    (st : ScreenState) (ok : Bool)
    (hL : st.loading = false)
    (hV : validateValues isUrl st.values = []) :
    (step isUrl cfg st (Event.clickSubmit ok)).head? =
      some (Action.setLoading true) ∧
    (step isUrl cfg st (Event.clickSubmit ok)).getLast? =
      some (Action.setLoading false) ∧
    (requestsOf (step isUrl cfg st (Event.clickSubmit ok))).length = 1 ∧
    (∀ n, 0 < n → n < (step isUrl cfg st (Event.clickSubmit ok)).length →
      (applyTrace st
        ((step isUrl cfg st (Event.clickSubmit ok)).take n)).loading = true) ∧
    (∀ st2 : ScreenState, st2.loading = true →
      step isUrl cfg st2 (Event.clickSubmit ok) = []) ∧
    (applyTrace st (step isUrl cfg st (Event.clickSubmit ok))).loading
      = false := by
  rcases cfg with ⟨p, d⟩
  have hstep : step isUrl ⟨p, d⟩ st (Event.clickSubmit ok) =
      onSubmit ⟨p, d⟩ st.values ok := by
    simp [step, hL, handleSubmit, hV]
  refine ⟨?_, ?_, ?_, ?_, ?_, ?_⟩
  · rw [hstep]; cases d <;> cases ok <;> rfl
  · rw [hstep]; cases d <;> cases ok <;> rfl
  · rw [hstep]; cases d <;> cases ok <;> rfl
  · rw [hstep]
    intro n h0 hn
    cases d <;> cases ok <;>
      simp only [onSubmit, Option.isSome_some, Option.isSome_none,
        List.append_assoc, List.cons_append, List.nil_append, if_true,
        if_false, List.length_cons, List.length_nil,
        Bool.false_eq_true] at hn ⊢ <;>
      interval_cases n <;>
      simp [applyTrace, applyAction]
  · intro st2 h2
    simp [step, h2]
  · rw [hstep]; cases d <;> cases ok <;> rfl

/-- C4 witness: a concrete idle create-mode screen with valid values: the
submit trace begins by setting `loading` and ends back in the idle state. -/
theorem claim_C4_witness :
    (step sampleUrlCheck cfgCreate sampleState (Event.clickSubmit true)).head?
      = some (Action.setLoading true) ∧
    (applyTrace sampleState
      (step sampleUrlCheck cfgCreate sampleState
        (Event.clickSubmit true))).loading = false := by
  have h := claim_C4_single_flight sampleUrlCheck cfgCreate sampleState true
    rfl (by decide)
  exact ⟨h.1, h.2.2.2.2.2⟩

theorem onSubmit_no_delete (cfg : Config) (data : BillboardFormValues)
    (ok : Bool) (u : String) :
    Action.request (Request.delete u) ∉ onSubmit cfg data ok := by
  rcases cfg with ⟨p, d⟩
  cases d <;> cases ok <;> simp [onSubmit]

theorem handleSubmit_no_delete (isUrl : String → Bool) (cfg : Config)
    (v : BillboardFormValues) (ok : Bool) (u : String) :
    Action.request (Request.delete u) ∉ handleSubmit isUrl cfg v ok := by
  unfold handleSubmit
  cases hv : validateValues isUrl v with
  | nil => exact onSubmit_no_delete cfg v ok u
  | cons e rest => simp [List.mem_map]

theorem applyTrace_handleSubmit_modalOpen (isUrl : String → Bool)
    (cfg : Config) (st : ScreenState) (v : BillboardFormValues) (ok : Bool) :
    (applyTrace st (handleSubmit isUrl cfg v ok)).modalOpen = st.modalOpen := by
  unfold handleSubmit
  cases hv : validateValues isUrl v with
  | nil =>
      rcases cfg with ⟨p, d⟩
      cases d <;> cases ok <;> simp [onSubmit, applyTrace, applyAction]
  | cons e rest => rw [applyTrace_map_fieldError]

theorem step_modalOpen_source (isUrl : String → Bool) (cfg : Config)
    (st : ScreenState) (e : Event)
    (h : (applyTrace st (step isUrl cfg st e)).modalOpen = true) :
    (cfg.initialData.isSome = true ∧ e = Event.clickDelete) ∨
      st.modalOpen = true := by
  cases e with
  | clickDelete =>
      by_cases hc : (cfg.initialData.isSome && !st.loading) = true
      · exact Or.inl ⟨((Bool.and_eq_true _ _).mp hc).1, rfl⟩
      · right
        simpa [step, hc, applyTrace] using h
  | confirmDelete ok =>
      by_cases hc : (st.modalOpen && !st.loading) = true
      · exact Or.inr ((Bool.and_eq_true _ _).mp hc).1
      · right
        simpa [step, hc, applyTrace] using h
  | closeModal =>
      by_cases hc : (st.modalOpen && !st.loading) = true
      · exact Or.inr ((Bool.and_eq_true _ _).mp hc).1
      · right
        simpa [step, hc, applyTrace] using h
  | clickSubmit ok =>
      right
      by_cases hl : st.loading = true
      · simpa [step, hl, applyTrace] using h
      · simp only [step, hl, Bool.not_eq_true, Bool.false_eq_true, if_false] at h
        rwa [applyTrace_handleSubmit_modalOpen] at h

theorem run_modalOpen_source (isUrl : String → Bool) (cfg : Config) :
    ∀ (es : List Event) (st : ScreenState),
      (run isUrl cfg st es).1.modalOpen = true →
      (cfg.initialData.isSome = true ∧ Event.clickDelete ∈ es) ∨
        st.modalOpen = true := by
  intro es
  induction es with
  | nil =>
      intro st h
      right
      simpa [run] using h
  | cons e rest ih =>
      intro st h
      simp only [run] at h
      rcases ih _ h with h1 | h2
      · exact Or.inl ⟨h1.1, List.mem_cons_of_mem _ h1.2⟩
      · rcases step_modalOpen_source isUrl cfg st e h2 with ⟨hs, he⟩ | h3
        · exact Or.inl ⟨hs, by rw [he]; exact List.mem_cons_self _ _⟩
        · exact Or.inr h3

theorem run_no_delete_create (isUrl : String → Bool) (cfg : Config)
    (hc : cfg.initialData = none) (u : String) :
    ∀ (es : List Event) (st : ScreenState), st.modalOpen = false →
      Action.request (Request.delete u) ∉ (run isUrl cfg st es).2 ∧
        (run isUrl cfg st es).1.modalOpen = false := by
  intro es
  induction es with
  | nil =>
      intro st h
      simp [run, h]
  | cons e rest ih =>
      intro st h
      have hstep : Action.request (Request.delete u) ∉ step isUrl cfg st e ∧
          (applyTrace st (step isUrl cfg st e)).modalOpen = false := by
        cases e with
        | clickDelete => simp [step, hc, applyTrace, h]
        | confirmDelete ok => simp [step, h, applyTrace]
        | closeModal => simp [step, h, applyTrace]
        | clickSubmit ok =>
            by_cases hl : st.loading = true
            · simp [step, hl, applyTrace, h]
            · simp only [step, hl, Bool.not_eq_true, Bool.false_eq_true, if_false]
              exact ⟨handleSubmit_no_delete isUrl cfg st.values ok u,
                by rw [applyTrace_handleSubmit_modalOpen]; exact h⟩
      have hrest := ih (applyTrace st (step isUrl cfg st e)) hstep.2
      constructor
      · simp only [run, List.mem_append]
        rintro (hmem | hmem)
        · exact hstep.1 hmem
        · exact hrest.1 hmem
      · simpa only [run] using hrest.2

/-- C5: The delete action is available only in edit mode, and the delete
request is unreachable without the confirmation step: in create mode no
event sequence ever produces a DELETE request, and whenever handling an
event issues the DELETE request, that event is the modal's confirm, a click
of the delete button (which opens the confirmation modal) occurred earlier
in the history, and the screen is in edit mode. -/
theorem claim_C5_delete_gated (isUrl : String → Bool) (cfg : Config)
    (u : String) :
    (∀ es : List Event, cfg.initialData = none →
      Action.request (Request.delete u) ∉
        (run isUrl cfg (initState cfg) es).2) ∧
    (∀ (es1 : List Event) (e : Event),
      Action.request (Request.delete u) ∈
        step isUrl cfg (run isUrl cfg (initState cfg) es1).1 e →
      (∃ ok, e = Event.confirmDelete ok) ∧ Event.clickDelete ∈ es1 ∧
        cfg.initialData.isSome = true) := by
  constructor
  · intro es hc
    exact (run_no_delete_create isUrl cfg hc u es (initState cfg) rfl).1
  · intro es1 e hmem
    have hod : (∃ ok, e = Event.confirmDelete ok) ∧
        (run isUrl cfg (initState cfg) es1).1.modalOpen = true := by
      cases e with
      | clickDelete =>
          by_cases hcond :
              (cfg.initialData.isSome &&
                !(run isUrl cfg (initState cfg) es1).1.loading) = true <;>
            simp [step, hcond] at hmem
      | confirmDelete ok =>
          by_cases hcond :
              ((run isUrl cfg (initState cfg) es1).1.modalOpen &&
                !(run isUrl cfg (initState cfg) es1).1.loading) = true
          · exact ⟨⟨ok, rfl⟩, ((Bool.and_eq_true _ _).mp hcond).1⟩
          · simp [step, hcond] at hmem
      | closeModal =>
          by_cases hcond :
              ((run isUrl cfg (initState cfg) es1).1.modalOpen &&
                !(run isUrl cfg (initState cfg) es1).1.loading) = true <;>
            simp [step, hcond] at hmem
      | clickSubmit ok =>
          by_cases hl : (run isUrl cfg (initState cfg) es1).1.loading = true
          · simp [step, hl] at hmem
          · simp only [step, hl, Bool.not_eq_true, Bool.false_eq_true, if_false] at hmem
            exact absurd hmem (handleSubmit_no_delete isUrl cfg _ ok u)
    rcases hod with ⟨he, hopen⟩
    rcases run_modalOpen_source isUrl cfg es1 (initState cfg) hopen with
      ⟨hsome, hclick⟩ | hbad
    · exact ⟨he, hclick, hsome⟩
    · simp [initState] at hbad

/-- C5 witness: in the sample edit-mode screen the history consisting of one
delete-button click makes the subsequent modal confirm the event issuing the
DELETE request; the theorem instantiated there. -/
theorem claim_C5_witness :
    (∃ ok, Event.confirmDelete false = Event.confirmDelete ok) ∧
      Event.clickDelete ∈ [Event.clickDelete] ∧
      cfgEdit.initialData.isSome = true :=
  (claim_C5_delete_gated sampleUrlCheck cfgEdit
      (updateUrl sampleParams)).2
    [Event.clickDelete] (Event.confirmDelete false) (by decide)

/-- The sample backing store holding the sample billboard. -/
def sampleDB : BillboardDB :=
  { billboards := [sampleBillboard] }

/-- C6: When the delete request fails (e.g. a referential-integrity
violation), the trace shows the remove-dependent-records-first toast,
performs no navigation and no refresh, the store is unchanged so the record
is still present in a subsequent list fetch, and on every completion path of
delete the confirmation modal is closed and the screen is idle again. -/
theorem claim_C6_delete_failure (cfg : Config) (st : ScreenState)
    (db : BillboardDB) (id : String) (b : Billboard) :
    Action.toastError
        "Make sure you deleted all categories using this billboard first" ∈
      onDelete cfg false ∧
    pushesOf (onDelete cfg false) = [] ∧
    Action.refresh ∉ onDelete cfg false ∧
    dbDelete db id false = db ∧
    (b ∈ listFetch db → b ∈ listFetch (dbDelete db id false)) ∧
    (∀ ok, (applyTrace st (onDelete cfg ok)).modalOpen = false ∧
      (applyTrace st (onDelete cfg ok)).loading = false) := by
  refine ⟨?_, ?_, ?_, ?_, ?_, ?_⟩
  · simp [onDelete]
  · simp [onDelete, pushesOf]
  · simp [onDelete]
  · simp [dbDelete]
  · intro hb
    simpa [dbDelete, listFetch] using hb
  · intro ok
    cases ok <;> simp [onDelete, applyTrace, applyAction]

/-- C6 witness: the sample record survives a failed delete in the sample
store: it is still returned by the subsequent list fetch. -/
theorem claim_C6_witness :
    sampleBillboard ∈ listFetch (dbDelete sampleDB "bb1" false) :=
  (claim_C6_delete_failure cfgEdit sampleState sampleDB "bb1"
      sampleBillboard).2.2.2.2.1 (by decide)

/-- A sample reference-data store with one category, size and color owned by
the sample store. -/
def sampleDropdownDB : DropdownDB :=
  { categories := [{ _id := "cat1", name := "Shirts", storeId := "store1" }]
    sizes := [{ _id := "size1", name := "Small", value := "S",
                storeId := "store1" }]
    colors := [{ _id := "color1", name := "Red", storeId := "store1",
                 value := "#f00" }] }

/-- C7 counterexample: with the categories fetch failing and the sizes and
colors fetches succeeding, the succeeding sizes collection is NOT delivered
to the form: the single `try`/`catch` around the joined `Promise.all` leaves
every collection at its initial empty value, even though the store holds a
size for this store — refuting the claim as stated. -/
theorem claim_C7_counterexample :
    (loadDropdowns sampleDropdownDB "store1" false true true).2.1 = [] ∧
      sizesFor sampleDropdownDB "store1" ≠ [] := by
  decide

/-- C7 (amended): the parallel loading of the dropdown collections is joined
by a single try/catch: when all three fetches succeed each mapped collection
is delivered to the form; when any fetch fails, all three degrade to the
empty option set (so the join never fails); and in every case the page still
renders the form with the product lookup result unaffected. -/
theorem claim_C7_amended_joined (db : DropdownDB) (storeId : String)
    (isValid : String → Bool) (products : List ProductDoc) (pid : String)
    (c s k : Bool) :
    ((c && s && k) = true →
      loadDropdowns db storeId c s k =
        (catsFor db storeId, sizesFor db storeId, colorsFor db storeId)) ∧
    ((c && s && k) = false →
      loadDropdowns db storeId c s k = ([], [], [])) ∧
    (productPage isValid products db storeId pid c s k).initialData =
      (loadProduct isValid products pid).1 := by
  refine ⟨?_, ?_, rfl⟩
  · intro h
    simp [loadDropdowns, h]
  · intro h
    simp [loadDropdowns, h]

/-- C7 witness: with all three sample fetches succeeding, the three mapped
sample collections are delivered. -/
theorem claim_C7_witness :
    loadDropdowns sampleDropdownDB "store1" true true true =
      (catsFor sampleDropdownDB "store1", sizesFor sampleDropdownDB "store1",
        colorsFor sampleDropdownDB "store1") :=
  (claim_C7_amended_joined sampleDropdownDB "store1" sampleUrlCheck [] "new"
      true true true).1 rfl

theorem mem_validate_short (isUrl : String → Bool)
    (v : BillboardFormValues) (h : v.label.length < 3) :
    FieldError.labelTooShort ∈ validateValues isUrl v := by
  simp [validateValues, h]

theorem mem_validate_long (isUrl : String → Bool)
    (v : BillboardFormValues) (h : 25 < v.label.length) :
    FieldError.labelTooLong ∈ validateValues isUrl v := by
  simp [validateValues, h]

theorem mem_validate_url (isUrl : String → Bool)
    (v : BillboardFormValues) (h : isUrl v.imageUrl = false) :
    FieldError.imageUrlNotUrl ∈ validateValues isUrl v := by
  simp [validateValues, h]

/-- C8: For every field assignment violating the schema (label length out of
the [3, 25] bounds, or an imageUrl the URL validator rejects), submit is
blocked: the trace contains no network request and no navigation, and a
validation message for the violated field is surfaced instead. -/
theorem claim_C8_validation_blocks (isUrl : String → Bool) (cfg : Config)
    (v : BillboardFormValues) (ok : Bool)
    (h : v.label.length < 3 ∨ 25 < v.label.length ∨
      isUrl v.imageUrl = false) :
    requestsOf (handleSubmit isUrl cfg v ok) = [] ∧
    pushesOf (handleSubmit isUrl cfg v ok) = [] ∧
    (v.label.length < 3 ∨ 25 < v.label.length →
      ∃ e : FieldError, Action.fieldError e ∈ handleSubmit isUrl cfg v ok ∧
        FieldError.field e = "label") ∧
    (isUrl v.imageUrl = false →
      Action.fieldError FieldError.imageUrlNotUrl ∈
        handleSubmit isUrl cfg v ok) := by
  have hne : validateValues isUrl v ≠ [] := by
    intro h0
    rcases (validateValues_eq_nil isUrl v).mp h0 with ⟨h1, h2, h3⟩
    rcases h with hx | hx | hx
    · exact h1 hx
    · exact h2 hx
    · rw [hx] at h3
      exact Bool.false_ne_true h3
  cases hv : validateValues isUrl v with
  | nil => exact absurd hv hne
  | cons e rest =>
      have hmap : handleSubmit isUrl cfg v ok =
          (e :: rest).map Action.fieldError := by
        simp only [handleSubmit, hv]
      refine ⟨?_, ?_, ?_, ?_⟩
      · rw [hmap]
        exact requestsOf_map_fieldError _
      · rw [hmap]
        exact pushesOf_map_fieldError _
      · rintro (hs | hl)
        · refine ⟨FieldError.labelTooShort, ?_, rfl⟩
          rw [hmap, ← hv]
          exact List.mem_map_of_mem _ (mem_validate_short isUrl v hs)
        · refine ⟨FieldError.labelTooLong, ?_, rfl⟩
          rw [hmap, ← hv]
          exact List.mem_map_of_mem _ (mem_validate_long isUrl v hl)
      · intro hurl
        rw [hmap, ← hv]
        exact List.mem_map_of_mem _ (mem_validate_url isUrl v hurl)

/-- Form values violating the schema (label below the length bound). -/
def badValues : BillboardFormValues :=
  { label := "ab", imageUrl := "https://host/img.png" }

/-- C8 witness: a two-character label is blocked with a label-field message
and no request is issued. -/
theorem claim_C8_witness :
    requestsOf (handleSubmit sampleUrlCheck cfgCreate badValues true) = [] :=
  (claim_C8_validation_blocks sampleUrlCheck cfgCreate badValues true
      (Or.inl (by decide))).1

/-- C9: When the route parameter is the literal `new` or fails the driver's
object-identifier check, the page performs no lookup and the form gets
`initialData = none` (create mode); the same fallback holds when a
well-formed identifier is looked up but no matching document exists. -/
theorem claim_C9_create_fallback (isValid : String → Bool)
    (products : List ProductDoc) (pid : String) :
    (pid = "new" ∨ isValid pid = false →
      loadProduct isValid products pid = (none, false)) ∧
    (pid ≠ "new" → isValid pid = true → findById products pid = none →
      loadProduct isValid products pid = (none, true)) := by
  constructor
  · rintro (h | h)
    · subst h
      simp [loadProduct]
    · simp [loadProduct, h]
  · intro h1 h2 h3
    have hb : (pid != "new") = true := bne_iff_ne.mpr h1
    simp [loadProduct, hb, h2, h3]

/-- C9 witness: the literal `new` route parameter yields create mode with no
lookup performed. -/
theorem claim_C9_witness :
    loadProduct sampleUrlCheck [] "new" = (none, false) :=
  (claim_C9_create_fallback sampleUrlCheck [] "new").1 (Or.inl rfl)

/-- C10: The setup page renders no visible output, and its effect keeps the
store-creation modal open: whenever it runs with the modal closed it invokes
the open action, and after the effect settles the modal is open for every
starting state. -/
theorem claim_C10_setup_modal (isOpen : Bool) :
    setUpPageRender = none ∧
    (isOpen = false → (setUpPageEffect isOpen).1 = true) ∧
    (setUpPageEffect isOpen).2 = true := by
  refine ⟨rfl, ?_, ?_⟩
  · intro h
    subst h
    rfl
  · cases isOpen <;> rfl

/-- C10 witness: mounted with the modal closed, the effect invokes the open
action. -/
theorem claim_C10_witness :
    (setUpPageEffect false).1 = true :=
  (claim_C10_setup_modal false).2.1 rfl

end Dashboard
